import Mathlib

/-!
Shallow embedding of the File Ingestion & Reconciliation Pipeline of the
VIRTUSA-JatayuS4-Lexicons repository (FTP_MODULE/FTP_CLIENT), together with
theorems settling the specification claims about it.

Conventions of the embedding:
* Python values appearing in parsed rows and database cells are modelled by
  the inductive type `PyVal` (None, bool, int, float, NaN, str).  Finite
  floats are modelled as rationals; the only claim-relevant property of
  floats is the null/non-null classification performed by `safe_float`.
* Cryptographic digests (SHA-256 in `hash_row` and `DataHasher.hash_record`)
  are modelled by their preimages: the digest function is deterministic, so
  equal preimages give equal digests, which is the only direction any claim
  uses.
* Database operations are modelled as pure state transitions on explicit
  list-backed tables; the retry-with-backoff wrapper around store calls
  (`_execute_with_retry`) is modelled as the operation succeeding, since the
  claims under study concern the data transformation, not transient I/O.
-/

/-- Python runtime values as they occur in parsed rows and store cells.
`int` and `float` are kept separate because Python stringifies them
differently; `nan` models the float NaN sentinel recognised by `pd.isna`. -/
inductive PyVal where
  | none : PyVal
  | bool : Bool → PyVal
  | int : ℤ → PyVal
  | float : ℚ → PyVal
  | nan : PyVal
  | str : String → PyVal
deriving DecidableEq

/-- Rendering of a rational that stands for Python's `str()` of a finite
float.  No claim depends on the exact digits produced, only on whether the
value is present at all. -/
def floatRepr (q : ℚ) : String := toString q

/-- Python `str()` on a `PyVal` (`str(None) = "None"`, `str(True) = "True"`,
ints and floats print their numerals). -/
def pyStr : PyVal → String
  | PyVal.none => "None"
  | PyVal.bool true => "True"
  | PyVal.bool false => "False"
  | PyVal.int n => toString n
  | PyVal.float q => floatRepr q
  | PyVal.nan => "nan"
  | PyVal.str s => s

/-- Python truthiness: `None`, `False`, `0`, `0.0` and `""` are falsy;
NaN is truthy. -/
def PyVal.truthy : PyVal → Bool
  | PyVal.none => false
  | PyVal.bool b => b
  | PyVal.int n => n ≠ 0
  | PyVal.float q => q ≠ 0
  | PyVal.nan => true
  | PyVal.str s => s ≠ ""

/-- Drop leading and trailing whitespace from a character list (Python
`str.strip()`). -/
def charTrim (cs : List Char) : List Char :=
  ((cs.dropWhile Char.isWhitespace).reverse.dropWhile Char.isWhitespace).reverse

/-- Python `str.strip()` (structurally recursive so that proofs can
evaluate it). -/
def myTrim (s : String) : String := String.mk (charTrim s.toList)

/-- Python `str.lower()` on the ASCII fragment the pipeline's data uses. -/
def myToLower (s : String) : String := String.mk (s.toList.map Char.toLower)

/-- Split a character list at every occurrence of a separator character
(Python `str.split(sep)` named with one-character separators). -/
def splitOnChar (c : Char) : List Char → List (List Char)
  | [] => [[]]
  | x :: t =>
    match splitOnChar c t with
    | [] => if x = c then [[], []] else [[x]]
    | h :: r => if x = c then [] :: h :: r else (x :: h) :: r

/-- Python `str.split(sep)` for a one-character separator. -/
def mySplitOn (c : Char) (s : String) : List String :=
  (splitOnChar c s.toList).map String.mk

/-- Left-to-right non-overlapping removal of every occurrence of a pattern
(Python `str.replace(pat, "")`), fuelled by the input length so that it is
structurally recursive. -/
def removeAllSubstrFuel (pat : List Char) : ℕ → List Char → List Char
  | 0, cs => cs
  | _, [] => []
  | fuel + 1, x :: t =>
    if pat ≠ [] && (x :: t).take pat.length = pat then
      removeAllSubstrFuel pat fuel ((x :: t).drop pat.length)
    else x :: removeAllSubstrFuel pat fuel t

/-- Python `s.replace(pat, "")`. -/
def removeAllSubstr (pat : List Char) (cs : List Char) : List Char :=
  removeAllSubstrFuel pat cs.length cs

/-- Numeric value of a run of decimal digits. -/
def digitsVal (cs : List Char) : ℕ :=
  cs.foldl (fun a c => a * 10 + (c.toNat - 48)) 0

/-- Mantissa of a Python float literal: `digits`, `digits.digits`,
`digits.` or `.digits`, with at least one digit overall. -/
def parseMantissa (cs : List Char) : Option ℚ :=
  let ip := cs.takeWhile Char.isDigit
  let rest := cs.dropWhile Char.isDigit
  match rest with
  | [] => if ip.isEmpty then Option.none else some (digitsVal ip : ℚ)
  | '.' :: fp =>
      if fp.all Char.isDigit && !(ip.isEmpty && fp.isEmpty) then
        some ((digitsVal ip : ℚ) + (digitsVal fp : ℚ) / (10 : ℚ) ^ fp.length)
      else Option.none
  | _ => Option.none

/-- Exponent part of a float literal (after the `e`/`E`): optional sign and
a nonempty run of digits. -/
def parseExpPart (cs : List Char) : Option ℤ :=
  match cs with
  | '+' :: t => if t ≠ [] && t.all Char.isDigit then some (digitsVal t : ℤ) else Option.none
  | '-' :: t => if t ≠ [] && t.all Char.isDigit then some (-(digitsVal t : ℤ)) else Option.none
  | t => if t ≠ [] && t.all Char.isDigit then some (digitsVal t : ℤ) else Option.none

/-- Unsigned body of a float literal: mantissa with optional exponent. -/
def parseFloatBody (cs : List Char) : Option ℚ :=
  let m := cs.takeWhile (fun c => c ≠ 'e' && c ≠ 'E')
  let e := cs.dropWhile (fun c => c ≠ 'e' && c ≠ 'E')
  match e with
  | [] => parseMantissa m
  | _ :: et =>
      match parseMantissa m, parseExpPart et with
      | some mq, some ex => some (mq * (10 : ℚ) ^ ex)
      | _, _ => Option.none

/-- Python `float()` applied to a string, restricted to finite decimal
literals (optional surrounding whitespace, optional sign, digits with an
optional fraction and exponent).  The special spellings `inf`/`infinity`
and digit-group underscores are outside the fragment the pipeline's claims
exercise and are rejected here. -/
def pyFloatOfString (s : String) : Option ℚ :=
  match charTrim s.toList with
  | '+' :: t => parseFloatBody t
  | '-' :: t => (parseFloatBody t).map (fun q => -q)
  | t => parseFloatBody t

/-- `safe_float` from src/utils/data_utils.py: `""` and `None` map to null,
NaN inputs (via `pd.isna`) map to null, the case-insensitive sentinels
`"nan"`, `"null"`, `"none"` map to null, and strings that fail float
parsing map to null; everything else converts. -/
def safe_float : PyVal → Option ℚ
  | PyVal.none => Option.none
  | PyVal.nan => Option.none
  | PyVal.bool b => some (if b then 1 else 0)
  | PyVal.int n => some (n : ℚ)
  | PyVal.float q => some q
  | PyVal.str s =>
      if s = "" then Option.none
      else if myTrim (myToLower s) = "nan" || myTrim (myToLower s) = "null" ||
          myTrim (myToLower s) = "none" then
        Option.none
      else pyFloatOfString s

/-- Hexadecimal digit test used by the UUID check. -/
def isHexDigit (c : Char) : Bool :=
  c.isDigit || ('a' ≤ c && c ≤ 'f') || ('A' ≤ c && c ≤ 'F')

/-- Strip any leading and trailing `{`/`}` characters (Python's
`str.strip("\x7b\x7d")`). -/
def stripBraceChars (cs : List Char) : List Char :=
  let p := fun c => c = '{' || c = '}'
  ((cs.dropWhile p).reverse.dropWhile p).reverse

/-- `uuid.UUID(s)` acceptance as exercised by `is_valid_uuid`
(src/utils/data_utils.py): drop `urn:`/`uuid:` markers, strip braces,
remove dashes, and require exactly 32 hexadecimal digits.  (CPython's
`int(_, 16)` laxities around whitespace and underscores inside the 32-char
window are outside the fragment the claims exercise.) -/
def isValidUUIDStr (s : String) : Bool :=
  if s = "" then false
  else
    let t := removeAllSubstr "uuid:".toList
      (removeAllSubstr "urn:".toList s.toList)
    let t := (stripBraceChars t).filter (fun c => c ≠ '-')
    t.length = 32 && t.all isHexDigit

/-- `is_valid_uuid` on an optional identifier: `None` and `""` are invalid
(`if not value`), otherwise the UUID grammar decides. -/
def is_valid_uuid : Option String → Bool
  | Option.none => false
  | some s => isValidUUIDStr s

/-- A parsed row: a Python dict from column name to value. -/
abbrev Row : Type := List (String × PyVal)

/-- First-match association-list lookup (Python dict access). -/
def alookup {α : Type} (k : String) : List (String × α) → Option α
  | [] => Option.none
  | (k', v) :: t => if k' = k then some v else alookup k t

/-- Python `dict.get(k)`: the stored value, or `None` when absent. -/
def Row.get (r : Row) (k : String) : PyVal :=
  (alookup k r).getD PyVal.none

/-- Python dict assignment `d[k] = v`: replace in place if the key exists,
append otherwise (insertion order preserved). -/
def dictSet {α : Type} (l : List (String × α)) (k : String) (v : α) :
    List (String × α) :=
  if (alookup k l).isSome then
    l.map (fun p => if p.1 = k then (k, v) else p)
  else l ++ [(k, v)]

/-- Python `set.add`: no-op when the element is already present. -/
def addToSet {α : Type} [DecidableEq α] (l : List α) (x : α) : List α :=
  if x ∈ l then l else x :: l

/-- `hash_row` from src/utils/data_utils.py: the SHA-256 digest of
`"::".join(str(row.get(k)) for k in keys)`, modelled by its preimage. -/
def hash_row (r : Row) (keys : List String) : String :=
  "::".intercalate (keys.map (fun k => pyStr (r.get k)))

/-- `normalize_phone` from src/utils/data_utils.py: keep the digits and
format 10- and 11-digit numbers, returning `None` for falsy or digit-free
input. -/
def normalize_phone (v : PyVal) : Option String :=
  if v.truthy = false then Option.none
  else
    let digits := (pyStr v).toList.filter Char.isDigit
    if digits = [] then Option.none
    else if digits.length = 10 then
      some ("(" ++ String.mk (digits.take 3) ++ ") " ++
        String.mk ((digits.drop 3).take 3) ++ "-" ++ String.mk (digits.drop 6))
    else if digits.length = 11 && digits.head? = some '1' then
      some ("+1 (" ++ String.mk ((digits.drop 1).take 3) ++ ") " ++
        String.mk ((digits.drop 4).take 3) ++ "-" ++ String.mk (digits.drop 7))
    else some (String.mk digits)

/-- `DataProcessor._parse_specialities`: split on commas, trim, drop empty
entries; falsy input and an empty result both yield `None`. -/
def parse_specialities (v : PyVal) : Option (List String) :=
  if v.truthy = false then Option.none
  else
    let l := ((mySplitOn ',' (pyStr v)).map myTrim).filter (fun s => s ≠ "")
    if l = [] then Option.none else some l

/-- Modelled from the spec: `FIELD_MAPPINGS` lives in src/utils/const.py,
which is not part of the provided sources (the spec treats column
normalisation as an external collaborator).  `_get_field_value` falls back
to `[field_key]` when a key has no mapping, so the mapping is modelled as
that identity fallback. -/
def FIELD_MAPPINGS (k : String) : List String := [k]

/-- `DataProcessor._get_field_value`: first candidate column that is
present with a non-`None` value, else `None`. -/
def get_field_value (r : Row) (k : String) : PyVal :=
  match (FIELD_MAPPINGS k).findSome? (fun n =>
      match alookup n r with
      | some v => if v = PyVal.none then Option.none else some v
      | Option.none => Option.none) with
  | some v => v
  | Option.none => PyVal.none

/-- Python `x == True` (booleans, and the numbers 1/1.0, compare equal to
`True`). -/
def pyEqTrue : PyVal → Bool
  | PyVal.bool b => b
  | PyVal.int n => n = 1
  | PyVal.float q => q = 1
  | _ => false

/-- Python `x == False` (booleans, and the numbers 0/0.0, compare equal to
`False`). -/
def pyEqFalse : PyVal → Bool
  | PyVal.bool b => !b
  | PyVal.int n => n = 0
  | PyVal.float q => q = 0
  | _ => false

/-- The in-network conditional of `DataProcessor.process_pricing`
(src/data/processor/data_processor.py lines 240-256): `True`, `"True"`,
`"true"` map to true; `False`, `"False"`, `"false"` map to false; anything
else maps to `None`. -/
def inNetworkOf (v : PyVal) : Option Bool :=
  if pyEqTrue v || v = PyVal.str "True" || v = PyVal.str "true" then some true
  else if pyEqFalse v || v = PyVal.str "False" || v = PyVal.str "false" then some false
  else Option.none

/-- Provider payload staged for upsert (`provider_data` in
`process_provider`). -/
structure ProviderData where
  provider_id : String
  provider_name : PyVal
  provider_address : PyVal
  provider_city : PyVal
  provider_state : PyVal
  provider_zip : PyVal
  provider_country : PyVal
  provider_phone : Option String
  provider_lat : Option ℚ
  provider_lng : Option ℚ
  provider_specialities : Option (List String)
  provider_benefits : PyVal
deriving DecidableEq

/-- Service payload staged for upsert (`service_data` in
`process_service`). -/
structure ServiceData where
  service_id : String
  service_name : PyVal
  service_code : PyVal
  service_category : PyVal
  service_description : PyVal
  setting : PyVal
deriving DecidableEq

/-- Insurance payload staged for upsert (`insurance_data` in
`process_insurance`). -/
structure InsuranceData where
  insurance_id : String
  insurance_name : PyVal
  insurance_plan : PyVal
  insurance_benefits : PyVal
deriving DecidableEq

/-- One element of `service_pricing_to_upsert`: the tuple (provider_id,
service_id, insurance_id, negotiated_price string, in_network,
standard_charge string). -/
structure PricingTuple where
  provider_id : String
  service_id : String
  insurance_id : Option String
  negotiated_price : Option String
  in_network : Option Bool
  standard_charge : Option String
deriving DecidableEq

/-- The store lookups and UUID generation that `DataProcessor` performs,
abstracted as pure functions.  `genUuid` is the stream of identifiers
`generate_uuid` would return, indexed by how many have been drawn. -/
structure ResolveEnv where
  providerLookup : PyVal → PyVal → PyVal → Option String
  serviceLookup : PyVal → Option String
  insuranceLookup : PyVal → PyVal → Option String
  genUuid : ℕ → String

/-- The mutable state of a `DataProcessor` instance: the per-file caches,
the staged upsert dictionaries and the staged relationship sets. -/
structure DPState where
  providerCache : List (String × String)
  serviceCache : List (String × String)
  insuranceCache : List (String × String)
  providersToUpsert : List (String × ProviderData)
  servicesToUpsert : List (String × ServiceData)
  insurancesToUpsert : List (String × InsuranceData)
  providerServices : List (String × String)
  serviceInsurance : List (String × String)
  servicePricing : List PricingTuple
  uuidCount : ℕ
deriving DecidableEq

/-- The empty `DataProcessor` state (fresh instance, or the state right
after `clear_caches`). -/
def DPState.empty : DPState :=
  ⟨[], [], [], [], [], [], [], [], [], 0⟩

/-- `DataProcessor.process_provider`: requires truthy (Provider Name, City,
Zip Code); identity hash over exactly those fields; cache hit, then store
lookup, then fresh identifier with a staged payload. -/
def processProvider (env : ResolveEnv) (st : DPState) (r : Row) :
    Option String × DPState :=
  if (r.get "Provider Name").truthy && (r.get "City").truthy &&
      (r.get "Zip Code").truthy then
    let key := hash_row r ["Provider Name", "City", "Zip Code"]
    match alookup key st.providerCache with
    | some pid => (some pid, st)
    | Option.none =>
      match env.providerLookup (r.get "Provider Name") (r.get "City")
          (r.get "Zip Code") with
      | some pid =>
          (some pid, { st with providerCache := dictSet st.providerCache key pid })
      | Option.none =>
          let pid := env.genUuid st.uuidCount
          let pd : ProviderData :=
            { provider_id := pid
              provider_name := r.get "Provider Name"
              provider_address := r.get "Address"
              provider_city := r.get "City"
              provider_state := r.get "State"
              provider_zip := r.get "Zip Code"
              provider_country := r.get "Country"
              provider_phone := normalize_phone (r.get "Phone Number")
              provider_lat := safe_float (r.get "Latitude")
              provider_lng := safe_float (r.get "Longitude")
              provider_specialities :=
                parse_specialities (get_field_value r "Provider Specialities")
              provider_benefits := r.get "Provider Benefits" }
          (some pid,
            { st with
                providersToUpsert := dictSet st.providersToUpsert pid pd
                providerCache := dictSet st.providerCache key pid
                uuidCount := st.uuidCount + 1 })
  else (Option.none, st)

/-- `DataProcessor.process_service`: requires truthy (Service Name, Service
Code); store lookup filtered by service code alone. -/
def processService (env : ResolveEnv) (st : DPState) (r : Row) :
    Option String × DPState :=
  if (r.get "Service Name").truthy && (r.get "Service Code").truthy then
    let key := hash_row r ["Service Name", "Service Code"]
    match alookup key st.serviceCache with
    | some sid => (some sid, st)
    | Option.none =>
      match env.serviceLookup (r.get "Service Code") with
      | some sid =>
          (some sid, { st with serviceCache := dictSet st.serviceCache key sid })
      | Option.none =>
          let sid := env.genUuid st.uuidCount
          let sd : ServiceData :=
            { service_id := sid
              service_name := r.get "Service Name"
              service_code := r.get "Service Code"
              service_category := r.get "Service Category"
              service_description := r.get "Service Description"
              setting := r.get "Setting" }
          (some sid,
            { st with
                servicesToUpsert := dictSet st.servicesToUpsert sid sd
                serviceCache := dictSet st.serviceCache key sid
                uuidCount := st.uuidCount + 1 })
  else (Option.none, st)

/-- `DataProcessor.process_insurance`: only invoked when both Insurance
Name and Plan Name are truthy; absence is not an error. -/
def processInsurance (env : ResolveEnv) (st : DPState) (r : Row) :
    Option String × DPState :=
  if (r.get "Insurance Name").truthy && (r.get "Plan Name").truthy then
    let key := hash_row r ["Insurance Name", "Plan Name"]
    match alookup key st.insuranceCache with
    | some iid => (some iid, st)
    | Option.none =>
      match env.insuranceLookup (r.get "Insurance Name") (r.get "Plan Name") with
      | some iid =>
          (some iid, { st with insuranceCache := dictSet st.insuranceCache key iid })
      | Option.none =>
          let iid := env.genUuid st.uuidCount
          let idata : InsuranceData :=
            { insurance_id := iid
              insurance_name := r.get "Insurance Name"
              insurance_plan := r.get "Plan Name"
              insurance_benefits := r.get "Insurance Benefits" }
          (some iid,
            { st with
                insurancesToUpsert := dictSet st.insurancesToUpsert iid idata
                insuranceCache := dictSet st.insuranceCache key iid
                uuidCount := st.uuidCount + 1 })
  else (Option.none, st)

/-- `DataProcessor.process_pricing`: nullable price parsing, the
provider-service pair staged only when the standard charge is present, the
pricing tuple staged into a set, and the service-insurance pair staged when
an insurance id is given.  Always returns success. -/
def processPricing (st : DPState) (r : Row) (pid sid : String)
    (iid : Option String) : Bool × DPState :=
  let standard := safe_float (get_field_value r "Standard Charge")
  let st1 :=
    if standard.isSome then
      { st with providerServices := addToSet st.providerServices (pid, sid) }
    else st
  let negotiated := safe_float (get_field_value r "Negotiated Price")
  let inn := inNetworkOf (r.get "In Network")
  let tuple : PricingTuple :=
    ⟨pid, sid, iid, negotiated.map floatRepr, inn, standard.map floatRepr⟩
  let st2 := { st1 with servicePricing := addToSet st1.servicePricing tuple }
  let st3 :=
    match iid with
    | some i => { st2 with serviceInsurance := addToSet st2.serviceInsurance (sid, i) }
    | Option.none => st2
  (true, st3)

/-- Result of `DataProcessor.process_row`: success flag, error message and
the processor state after the call. -/
structure RowResult where
  ok : Bool
  err : String
  st : DPState
deriving DecidableEq

/-- `DataProcessor.process_row`: provider → service → insurance → pricing;
a malformed provider or service identifier rejects the row, a malformed
insurance identifier is replaced by `None`. -/
def processRow (env : ResolveEnv) (st : DPState) (r : Row) : RowResult :=
  let p := processProvider env st r
  match p.1 with
  | Option.none => ⟨false, "Invalid/missing provider identifier", p.2⟩
  | some pid =>
    if isValidUUIDStr pid = false then
      ⟨false, "Invalid/missing provider identifier", p.2⟩
    else
      let s := processService env p.2 r
      match s.1 with
      | Option.none => ⟨false, "Invalid/missing service identifier", s.2⟩
      | some sid =>
        if isValidUUIDStr sid = false then
          ⟨false, "Invalid/missing service identifier", s.2⟩
        else
          let i := processInsurance env s.2 r
          let iid :=
            match i.1 with
            | some x => if isValidUUIDStr x then some x else Option.none
            | Option.none => Option.none
          let pr := processPricing i.2 r pid sid iid
          if pr.1 then ⟨true, "", pr.2⟩
          else ⟨false, "Failed to process pricing data", pr.2⟩

/-- Lifecycle states of a queue record (`processed_ftp_files.status`). -/
inductive QStatus where
  | pending : QStatus
  | processing : QStatus
  | completed : QStatus
  | failed : QStatus
deriving DecidableEq

/-- One row of the `processed_ftp_files` queue table, restricted to the
columns `enqueue_file` and the status transitions read or write. -/
structure QueueRecord where
  id : ℕ
  hospital_name : String
  file_name : String
  file_hash : String
  status : QStatus
  retry_count : ℕ
  error_message : Option String
  source_provider_uuid : String
  created_at : Option String
  last_checked_at : Option String
  updated_at : Option String
  processed_at : Option String
deriving DecidableEq

/-- The queue table. -/
abbrev QueueDB : Type := List QueueRecord

/-- Row filter for the `(hospital_name, file_name)` identity. -/
def matchesFile (p f : String) (r : QueueRecord) : Bool :=
  r.hospital_name = p && r.file_name = f

/-- Outcome of one `enqueue_file` call, refining the returned boolean with
the branch that produced it. -/
inductive EnqueueOutcome where
  | failedHash : EnqueueOutcome
  | skippedCompleted : EnqueueOutcome
  | skippedInQueue : EnqueueOutcome
  | retriedFailed : EnqueueOutcome
  | updatedContent : EnqueueOutcome
  | insertedNew : EnqueueOutcome
deriving DecidableEq

/-- The boolean `enqueue_file` actually returns for each outcome (store
writes modelled as succeeding). -/
def EnqueueOutcome.toBool : EnqueueOutcome → Bool
  | EnqueueOutcome.failedHash => false
  | EnqueueOutcome.skippedCompleted => false
  | EnqueueOutcome.skippedInQueue => false
  | EnqueueOutcome.retriedFailed => true
  | EnqueueOutcome.updatedContent => true
  | EnqueueOutcome.insertedNew => true

/-- `supabase.table(..).update(data).eq("id", rid)`: rewrite every row with
the given id. -/
def updateById (db : QueueDB) (rid : ℕ) (f : QueueRecord → QueueRecord) :
    QueueDB :=
  db.map (fun r => if r.id = rid then f r else r)

/-- `DBQueue.enqueue_file` (src/database/db_queue.py lines 65-218).
`hash?` is the result of `calculate_sha256` on the file (None when the file
is unreadable), `now` the timestamp string, `nextId` the row id the insert
would allocate.  Exact-hash matches are skipped or retried according to
their status; a same-name different-hash record is updated in place;
otherwise a fresh pending record is inserted. -/
def enqueue_file (db : QueueDB) (now : String) (nextId : ℕ)
    (sourceUuid p f : String) (hash? : Option String) :
    EnqueueOutcome × QueueDB :=
  match hash? with
  | Option.none => (EnqueueOutcome.failedHash, db)
  | some h =>
    let exact := db.filter (fun r => matchesFile p f r && r.file_hash = h)
    match exact.head? with
    | some r =>
      if r.status = QStatus.completed then (EnqueueOutcome.skippedCompleted, db)
      else if r.status = QStatus.pending || r.status = QStatus.processing then
        (EnqueueOutcome.skippedInQueue, db)
      else
        (EnqueueOutcome.retriedFailed,
          updateById db r.id (fun x =>
            { x with
                status := QStatus.pending
                last_checked_at := some now
                retry_count := 0
                error_message := Option.none
                updated_at := some now }))
    | Option.none =>
      let conflict := db.filter (fun r => matchesFile p f r && r.file_hash ≠ h)
      match conflict.head? with
      | some r =>
        (EnqueueOutcome.updatedContent,
          updateById db r.id (fun x =>
            { x with
                file_hash := h
                status := QStatus.pending
                last_checked_at := some now
                retry_count := 0
                error_message := Option.none
                updated_at := some now
                processed_at := Option.none }))
      | Option.none =>
        (EnqueueOutcome.insertedNew,
          db ++ [{ id := nextId
                   hospital_name := p
                   file_name := f
                   file_hash := h
                   status := QStatus.pending
                   retry_count := 0
                   error_message := Option.none
                   source_provider_uuid := sourceUuid
                   created_at := some now
                   last_checked_at := some now
                   updated_at := Option.none
                   processed_at := Option.none }])

/-- Counts of one `process_one_by_one` run over a parsed file. -/
structure LoopResult where
  success : Bool
  rows_processed : ℕ
  rows_successful : ℕ
  rows_failed : ℕ
  st : DPState
deriving DecidableEq

/-- The row loop of `FTPProcessor.process_one_by_one`
(src/data/processor/ftp_processor.py lines 511-648): every row is fed
through `process_row`, failures only increment `rows_failed`, and the
function reports success whenever no exception escapes - which, for
well-typed row dictionaries, is always. -/
def processOneByOne (env : ResolveEnv) (st : DPState) (rows : List Row) :
    LoopResult :=
  let fin := rows.foldl
    (fun (acc : ℕ × ℕ × ℕ × DPState) r =>
      let res := processRow env acc.2.2.2 r
      if res.ok then (acc.1 + 1, acc.2.1 + 1, acc.2.2.1, res.st)
      else (acc.1 + 1, acc.2.1, acc.2.2.1 + 1, res.st))
    (0, 0, 0, st)
  ⟨true, fin.1, fin.2.1, fin.2.2.1, fin.2.2.2⟩

/-- The queue status `process_pending_files` writes for one parsed file
(src/data/processor/ftp_processor.py lines 172-215 with lines 291-311):
an empty parse raises and the file is marked failed; otherwise the loop
result's success flag decides between `mark_as_completed` and
`mark_as_failed`. -/
def fileStatusAfter (env : ResolveEnv) (st : DPState) (rows : List Row) :
    QStatus :=
  if rows.isEmpty then QStatus.failed
  else if (processOneByOne env st rows).success then QStatus.completed
  else QStatus.failed

/-- A row of the `providers` table, restricted to the columns the change
detector reads. -/
structure ProviderRow where
  provider_id : String
  provider_name : String
  provider_city : String
  provider_state : String
  provider_zip : String
deriving DecidableEq

/-- A row of the `services` table, restricted to the columns the change
detector reads. -/
structure ServiceRow where
  service_id : String
  service_category : String
  service_code : String
deriving DecidableEq

/-- A row of the `service_pricing` table, restricted to its composite
key. -/
structure SPRow where
  provider_id : String
  service_id : String
  insurance_id : Option String
deriving DecidableEq

/-- A row of the `insurance` table (identity columns only; the change
detector never touches this table). -/
structure InsRow where
  insurance_id : String
  insurance_name : String
  insurance_plan : String
deriving DecidableEq

/-- The persisted store as seen by the change detector: entity catalogs and
relationship tables. -/
structure Store where
  providers : List ProviderRow
  services : List ServiceRow
  insuranceRows : List InsRow
  provider_services : List (String × String)
  service_insurance : List (String × String)
  service_pricing : List SPRow
deriving DecidableEq

/-- The `provider_info` dict handed to the change detector (string-rendered
fields of the file's first row). -/
structure ProviderInfo where
  name : String
  city : String
  state : String
  zip_code : String
deriving DecidableEq

/-- The service identity key built by
`ChangeDetector.extract_unique_entities_from_dataframe`:
`f"{row['Service Category']}_{row['Service Code']}"`. -/
def serviceKeyOf (r : Row) : String :=
  pyStr (r.get "Service Category") ++ "_" ++ pyStr (r.get "Service Code")

/-- Split a character list at the first occurrence of a separator,
returning the text before it and everything after it; `none` when the
separator does not occur. -/
def splitFirstChar (sep : Char) : List Char → Option (List Char × List Char)
  | [] => Option.none
  | x :: t =>
    if x = sep then some ([], t)
    else (splitFirstChar sep t).map (fun p => (x :: p.1, p.2))

/-- `key.split("_", 1)` as used by
`detect_and_delete_missing_records_for_provider`: the text before the
first underscore and everything after it; no underscore means the
`len(parts) == 2` guard fails. -/
def splitServiceKey (key : String) : Option (String × String) :=
  (splitFirstChar '_' key.toList).map (fun p => (String.mk p.1, String.mk p.2))

/-- The provider-id lookup at the top of
`detect_and_delete_missing_records_for_provider` (filter by zip, state,
city and name; first row wins). -/
def resolveProviderId (store : Store) (info : ProviderInfo) : Option String :=
  ((store.providers.filter (fun p =>
      p.provider_zip = info.zip_code && p.provider_state = info.state &&
      p.provider_city = info.city && p.provider_name = info.name)).head?).map
    (fun p => p.provider_id)

/-- The set of persisted service ids the detector resolves from the current
batch: each distinct service key is split at its first underscore and looked
up by (category, code); unresolved keys contribute nothing. -/
def currentServiceIds (store : Store) (df : List Row) : List String :=
  ((df.map serviceKeyOf).eraseDups).filterMap (fun key =>
    match splitServiceKey key with
    | some (c, d) =>
        ((store.services.filter (fun s =>
            s.service_category = c && s.service_code = d)).head?).map
          (fun s => s.service_id)
    | Option.none => Option.none)

/-- `ChangeDetector.detect_and_delete_missing_records_for_provider`
(src/services/change_detector.py lines 317-461): resolve the provider,
diff its persisted provider-service relationships against the batch, and
delete the stale relationship rows together with their same-provider
same-service pricing rows.  Returns the success flag, the number of
relationships removed, and the store after the deletions. -/
def detectAndDelete (store : Store) (df : List Row) (info : ProviderInfo) :
    (Bool × ℕ) × Store :=
  match resolveProviderId store info with
  | Option.none => ((true, 0), store)
  | some pid =>
    let currentIds := currentServiceIds store df
    let existingIds :=
      (store.provider_services.filter (fun e => e.1 = pid)).map (fun e => e.2)
    let stale := existingIds.filter (fun sid => !(currentIds.contains sid))
    let store' :=
      { store with
          provider_services :=
            store.provider_services.filter
              (fun e => !(e.1 = pid && stale.contains e.2))
          service_pricing :=
            store.service_pricing.filter
              (fun sp => !(sp.provider_id = pid && stale.contains sp.service_id)) }
    ((true, stale.eraseDups.length), store')

/-- The record-cleaning step of `DataHasher.hash_record`
(src/utils/data_hasher.py lines 14-26): drop `None`-valued fields and
stringify the rest. -/
def cleanEntry (p : String × PyVal) : Option (String × String) :=
  if p.2 = PyVal.none then Option.none else some (p.1, pyStr p.2)

/-- Lexicographic order on cleaned items, matching Python's
`sorted(cleaned_record.items())` (dict keys are unique, so the key decides). -/
def itemLe (a b : String × String) : Bool :=
  a.1 < b.1 || (a.1 = b.1 && a.2 ≤ b.2)

/-- `DataHasher.hash_record`: the SHA-256 digest of the JSON dump of the
sorted cleaned items, modelled by its preimage (the sorted cleaned item
list); equal preimages give equal digests. -/
def hash_record (record : List (String × PyVal)) : List (String × String) :=
  (record.filterMap cleanEntry).mergeSort (fun a b => itemLe a b)

/-- Well-formed UUID used by witnesses as a store-resolved provider id. -/
def fixtureUuidA : String := "123e4567-e89b-12d3-a456-426614174000"

/-- Well-formed UUID used by witnesses as a store-resolved service id. -/
def fixtureUuidB : String := "123e4567-e89b-12d3-a456-426614174001"

/-- Resolver environment over an empty store with a degenerate UUID stream
(every generated identifier is the empty string, hence malformed). -/
def envNoStore : ResolveEnv :=
  ⟨fun _ _ _ => Option.none, fun _ => Option.none, fun _ _ => Option.none,
   fun _ => ""⟩

/-- Resolver environment whose store resolves every provider to
`fixtureUuidA` and every service to `fixtureUuidB`. -/
def envResolved : ResolveEnv :=
  ⟨fun _ _ _ => some fixtureUuidA, fun _ => some fixtureUuidB,
   fun _ _ => Option.none, fun _ => ""⟩

/-- A row with complete provider and service identity fields and no
insurance fields. -/
def rowPS : Row :=
  [("Provider Name", PyVal.str "Mercy"), ("City", PyVal.str "Austin"),
   ("Zip Code", PyVal.str "73301"), ("Service Name", PyVal.str "MRI"),
   ("Service Code", PyVal.str "MR1")]

/-- A row whose price columns carry malformed values (empty string and a
not-a-number sentinel). -/
def rowMalformedPrices : Row :=
  [("Standard Charge", PyVal.str ""), ("Negotiated Price", PyVal.str "N/A")]

/-- A completed queue record for `Clinic A / clinic_a.csv` with hash
`h1`. -/
def qrecCompleted : QueueRecord :=
  ⟨0, "Clinic A", "clinic_a.csv", "h1", QStatus.completed, 0, Option.none,
   "src1", some "t0", some "t0", Option.none, some "t1"⟩

/-- A failed queue record for `Clinic A / clinic_a.csv` with hash `h1` and
a recorded error. -/
def qrecFailed : QueueRecord :=
  ⟨1, "Clinic A", "clinic_a.csv", "h1", QStatus.failed, 2, some "boom",
   "src1", some "t0", some "t0", Option.none, some "t1"⟩

/-- The store used by the reconciliation counterexample: provider `P1`
offers service `S1`, whose catalog entry has an underscore inside its
category. -/
def storeUnderscore : Store :=
  { providers := [⟨"P1", "General Hospital", "Springfield", "IL", "62701"⟩]
    services := [⟨"S1", "Lab_Work", "X1"⟩]
    insuranceRows := []
    provider_services := [("P1", "S1")]
    service_insurance := []
    service_pricing := [⟨"P1", "S1", Option.none⟩] }

/-- A one-row batch for provider `P1` that still contains the service with
category `Lab_Work` and code `X1`. -/
def dfUnderscore : List Row :=
  [[("Service Category", PyVal.str "Lab_Work"),
    ("Service Code", PyVal.str "X1")]]

/-- The provider info extracted from that batch's file. -/
def infoUnderscore : ProviderInfo :=
  ⟨"General Hospital", "Springfield", "IL", "62701"⟩

theorem mem_addToSet_self {α : Type} [DecidableEq α] (l : List α) (x : α) :
    x ∈ addToSet l x := by
  unfold addToSet
  split
  · assumption
  · exact List.mem_cons_self x l

theorem alookup_append_self {α : Type} (k : String) (v : α)
    (l : List (String × α)) (h : alookup k l = Option.none) :
    alookup k (l ++ [(k, v)]) = some v := by
  induction l with
  | nil => simp [alookup]
  | cons p t ih =>
      rw [List.cons_append]
      unfold alookup at h ⊢
      by_cases hk : p.1 = k
      · rw [if_pos hk] at h
        exact absurd h (by simp)
      · rw [if_neg hk] at h ⊢
        exact ih h

theorem dictSet_of_none {α : Type} (l : List (String × α)) (k : String)
    (v : α) (h : alookup k l = Option.none) :
    dictSet l k v = l ++ [(k, v)] := by
  unfold dictSet
  rw [h]
  simp

theorem eq_singleton_of_length_le_one {α : Type} {l : List α} {r : α}
    (h1 : l.length ≤ 1) (h2 : r ∈ l) : l = [r] := by
  cases l with
  | nil => cases h2
  | cons a t =>
      cases t with
      | nil =>
          cases h2 with
          | head => rfl
          | tail _ h => cases h
      | cons b t2 => simp at h1

theorem filterMap_clean_mapNone (r : List (String × PyVal)) (k : String) :
    ((r.map (fun p => if p.1 = k then (k, PyVal.none) else p)).filterMap
        cleanEntry) =
      ((r.filter (fun p => p.1 ≠ k)).filterMap cleanEntry) := by
  induction r with
  | nil => rfl
  | cons p t ih =>
      by_cases h : p.1 = k
      · simp only [List.map_cons, List.filter_cons, if_pos h, h]
        simp only [decide_not, decide_True, Bool.not_true, Bool.false_eq_true,
          if_false]
        rw [List.filterMap_cons]
        simp only [cleanEntry, if_pos rfl]
        simpa using ih
  -- the head survives both the rewrite and the filter when its key differs
      · simp only [List.map_cons, List.filter_cons, if_neg h]
        have hd : decide (p.1 ≠ k) = true := by simpa using h
        rw [hd]
        simp only [if_true, List.filterMap_cons]
        rw [ih]

theorem filter_key_of_alookup_none {α : Type} (k : String)
    (r : List (String × α)) (h : alookup k r = Option.none) :
    r.filter (fun p => p.1 ≠ k) = r := by
  induction r with
  | nil => rfl
  | cons p t ih =>
      unfold alookup at h
      by_cases hk : p.1 = k
      · rw [if_pos hk] at h
        simp at h
      · rw [if_neg hk] at h
        have hd : decide (p.1 ≠ k) = true := by simpa using hk
        simp only [List.filter_cons, hd, if_true]
        rw [ih h]

theorem filterMap_clean_filter_none (r : List (String × PyVal)) :
    ((r.filter (fun p => p.2 ≠ PyVal.none)).filterMap cleanEntry) =
      r.filterMap cleanEntry := by
  induction r with
  | nil => rfl
  | cons p t ih =>
      by_cases h : p.2 = PyVal.none
      · have hd : decide (p.2 ≠ PyVal.none) = false := by simpa using h
        simp only [List.filter_cons, hd, Bool.false_eq_true, if_false]
        rw [List.filterMap_cons]
        simp only [cleanEntry, if_pos h]
        exact ih
      · have hd : decide (p.2 ≠ PyVal.none) = true := by simpa using h
        simp only [List.filter_cons, hd, if_true, List.filterMap_cons]
        rw [ih]

/-- C10: the entity content hash ignores absent and `None`-valued fields
and compares remaining values by their string representation: binding a
key to `None` hashes like removing the key, dropping the `None`-valued
fields of a record leaves its hash unchanged, and payloads whose values
stringify identically (`1` vs `"1"`) hash identically. -/
theorem hash_record_ignores_none_and_stringifies :
    (∀ (record : List (String × PyVal)) (k : String),
        hash_record (dictSet record k PyVal.none) =
          hash_record (record.filter (fun p => p.1 ≠ k))) ∧
    (∀ record : List (String × PyVal),
        hash_record (record.filter (fun p => p.2 ≠ PyVal.none)) =
          hash_record record) ∧
    (∀ k : String,
        hash_record [(k, PyVal.int 1)] = hash_record [(k, PyVal.str "1")]) := by
  refine ⟨?_, ?_, ?_⟩
  · intro record k
    unfold hash_record
    refine congrArg (fun l => List.mergeSort l (fun a b => itemLe a b)) ?_
    unfold dictSet
    by_cases h : (alookup k record).isSome
    · rw [if_pos h]
      exact filterMap_clean_mapNone record k
    · rw [if_neg h]
      have hn : alookup k record = Option.none := by
        cases ha : alookup k record
        · rfl
        · rw [ha] at h
          simp at h
      rw [List.filterMap_append, filter_key_of_alookup_none k record hn]
      simp [cleanEntry]
  · intro record
    unfold hash_record
    exact congrArg (fun l => List.mergeSort l (fun a b => itemLe a b))
      (filterMap_clean_filter_none record)
  · intro k
    unfold hash_record
    refine congrArg (fun l => List.mergeSort l (fun a b => itemLe a b)) ?_
    show List.filterMap cleanEntry [(k, PyVal.int 1)] =
      List.filterMap cleanEntry [(k, PyVal.str "1")]
    simp only [List.filterMap, cleanEntry]
    rfl

theorem mem_servicePricing_processPricing (st : DPState) (r : Row)
    (pid sid : String) (iid : Option String) :
    (⟨pid, sid, iid,
      (safe_float (get_field_value r "Negotiated Price")).map floatRepr,
      inNetworkOf (r.get "In Network"),
      (safe_float (get_field_value r "Standard Charge")).map floatRepr⟩ :
        PricingTuple) ∈
      (processPricing st r pid sid iid).2.servicePricing := by
  unfold processPricing
  cases iid with
  | none =>
      dsimp only
      split
      · exact mem_addToSet_self _ _
      · exact mem_addToSet_self _ _
  | some i =>
      dsimp only
      split
      · exact mem_addToSet_self _ _
      · exact mem_addToSet_self _ _

/-- C6 counterexample: the claim maps every case variant of "true" to the
boolean, but the staged in-network value for the string "TRUE" is null,
not true, and the full staged pricing tuple of such a row carries null. -/
theorem in_network_upper_true_cex :
    inNetworkOf (PyVal.str "TRUE") = Option.none ∧
    inNetworkOf (PyVal.str "tRuE") = Option.none ∧
    (processPricing DPState.empty [("In Network", PyVal.str "TRUE")]
        fixtureUuidA fixtureUuidB Option.none).2.servicePricing =
      [⟨fixtureUuidA, fixtureUuidB, Option.none, Option.none, Option.none,
        Option.none⟩] := by
  refine ⟨rfl, rfl, ?_⟩
  rfl

/-- C6 (amended): the in-network parser of `process_pricing` is
case-sensitive: booleans map to themselves, exactly the strings
"True"/"true" and "False"/"false" map to the corresponding boolean, every
other string maps to unknown (null), and the parsed value is what is
staged in the pricing tuple. -/
theorem in_network_parser_exact_strings :
    (inNetworkOf (PyVal.bool true) = some true) ∧
    (inNetworkOf (PyVal.bool false) = some false) ∧
    (inNetworkOf (PyVal.str "True") = some true) ∧
    (inNetworkOf (PyVal.str "true") = some true) ∧
    (inNetworkOf (PyVal.str "False") = some false) ∧
    (inNetworkOf (PyVal.str "false") = some false) ∧
    (∀ s : String, s ≠ "True" → s ≠ "true" → s ≠ "False" → s ≠ "false" →
      inNetworkOf (PyVal.str s) = Option.none) ∧
    (∀ (st : DPState) (r : Row) (pid sid : String) (iid : Option String),
      (⟨pid, sid, iid,
        (safe_float (get_field_value r "Negotiated Price")).map floatRepr,
        inNetworkOf (r.get "In Network"),
        (safe_float (get_field_value r "Standard Charge")).map floatRepr⟩ :
          PricingTuple) ∈
        (processPricing st r pid sid iid).2.servicePricing) := by
  refine ⟨rfl, rfl, rfl, rfl, rfl, rfl, ?_, ?_⟩
  · intro s h1 h2 h3 h4
    simp [inNetworkOf, pyEqTrue, pyEqFalse, h1, h2, h3, h4]
  · intro st r pid sid iid
    exact mem_servicePricing_processPricing st r pid sid iid

/-- C6 witness: the amended theorem applied to the mixed-case string
"tRuE" yields null. -/
theorem in_network_parser_exact_strings_witness :
    inNetworkOf (PyVal.str "tRuE") = Option.none :=
  in_network_parser_exact_strings.2.2.2.2.2.2.1 "tRuE" (by decide) (by decide)
    (by decide) (by decide)

/-- C7: when both price columns fail nullable-decimal parsing (empty,
unparsable or a NaN sentinel) and the in-network value is unrecognised,
`process_pricing` still succeeds and stages a tuple with null prices and
null in-network; in particular `""` and `"N/A"` fail `safe_float`. -/
theorem malformed_prices_never_fail_row (st : DPState) (r : Row)
    (pid sid : String) (iid : Option String)
    (hs : safe_float (get_field_value r "Standard Charge") = Option.none)
    (hn : safe_float (get_field_value r "Negotiated Price") = Option.none)
    (hi : inNetworkOf (r.get "In Network") = Option.none) :
    (processPricing st r pid sid iid).1 = true ∧
    (⟨pid, sid, iid, Option.none, Option.none, Option.none⟩ : PricingTuple) ∈
      (processPricing st r pid sid iid).2.servicePricing ∧
    safe_float (PyVal.str "") = Option.none ∧
    safe_float (PyVal.str "N/A") = Option.none := by
  refine ⟨?_, ?_, rfl, by decide⟩
  · unfold processPricing
    cases iid <;> rfl
  · have h := mem_servicePricing_processPricing st r pid sid iid
    rw [hs, hn, hi] at h
    exact h

/-- C7 witness: a concrete row with `standard_charge = ""` and
`negotiated_price = "N/A"` stages an all-null pricing tuple and
succeeds. -/
theorem malformed_prices_never_fail_row_witness :
    (processPricing DPState.empty rowMalformedPrices fixtureUuidA
        fixtureUuidB Option.none).1 = true ∧
    (⟨fixtureUuidA, fixtureUuidB, Option.none, Option.none, Option.none,
      Option.none⟩ : PricingTuple) ∈
      (processPricing DPState.empty rowMalformedPrices fixtureUuidA
          fixtureUuidB Option.none).2.servicePricing ∧
    safe_float (PyVal.str "") = Option.none ∧
    safe_float (PyVal.str "N/A") = Option.none :=
  malformed_prices_never_fail_row DPState.empty rowMalformedPrices
    fixtureUuidA fixtureUuidB Option.none (by decide) (by decide) (by decide)

/-- C5 counterexample: a successfully parsed one-row file whose single row
fails row-level processing (no provider fields) is marked completed, not
failed. -/
theorem all_rows_failed_file_completed_cex :
    fileStatusAfter envNoStore DPState.empty [([] : Row)] =
      QStatus.completed ∧
    (processOneByOne envNoStore DPState.empty [([] : Row)]).rows_failed = 1 ∧
    (processOneByOne envNoStore DPState.empty
        [([] : Row)]).rows_successful = 0 ∧
    fileStatusAfter envNoStore DPState.empty [([] : Row)] ≠
      QStatus.failed := by
  refine ⟨rfl, rfl, rfl, ?_⟩
  decide

/-- C5 (amended): a successfully parsed, non-empty file in which every row
fails row-level processing is still reported successful by the row loop and
its queue record is marked completed, not failed - row failures are
recorded only in the statistics. -/
theorem all_rows_failed_marked_completed (env : ResolveEnv) (st : DPState)
    (rows : List Row) (hne : rows ≠ [])
    (hall : (processOneByOne env st rows).rows_successful = 0) :
    fileStatusAfter env st rows = QStatus.completed ∧
    (processOneByOne env st rows).success = true := by
  have hs : (processOneByOne env st rows).success = true := rfl
  refine ⟨?_, hs⟩
  unfold fileStatusAfter
  rw [hs]
  have he : rows.isEmpty = false := by
    cases rows with
    | nil => exact absurd rfl hne
    | cons a t => rfl
  rw [he]
  simp

/-- C5 witness: the amended theorem applied to the all-rows-failed one-row
file. -/
theorem all_rows_failed_marked_completed_witness :
    fileStatusAfter envNoStore DPState.empty [([] : Row)] =
      QStatus.completed ∧
    (processOneByOne envNoStore DPState.empty [([] : Row)]).success = true :=
  all_rows_failed_marked_completed envNoStore DPState.empty [([] : Row)]
    (by decide) (by decide)

theorem processPricing_fst (st : DPState) (r : Row) (pid sid : String)
    (iid : Option String) : (processPricing st r pid sid iid).1 = true := by
  unfold processPricing
  cases iid <;> rfl

/-- C8: `process_row` fails exactly when the provider or the service does
not resolve to a well-formed identifier; a failed insurance resolution
never fails the row - the pricing tuple is staged with a null insurance id
instead. -/
theorem process_row_fails_iff (env : ResolveEnv) (st : DPState) (r : Row) :
    ((processRow env st r).ok =
      (is_valid_uuid (processProvider env st r).1 &&
        is_valid_uuid (processService env (processProvider env st r).2 r).1)) ∧
    (∀ pid sid,
      (processProvider env st r).1 = some pid → isValidUUIDStr pid = true →
      (processService env (processProvider env st r).2 r).1 = some sid →
      isValidUUIDStr sid = true →
      is_valid_uuid (processInsurance env
          (processService env (processProvider env st r).2 r).2 r).1 = false →
      processRow env st r =
        ⟨true, "",
          (processPricing
            (processInsurance env
              (processService env (processProvider env st r).2 r).2 r).2
            r pid sid Option.none).2⟩) := by
  constructor
  · unfold processRow
    cases hp : (processProvider env st r).1 with
    | none => simp [hp, is_valid_uuid]
    | some pid =>
        cases hs : (processService env (processProvider env st r).2 r).1 with
        | none =>
            by_cases hv : isValidUUIDStr pid = true
            · simp [hp, hs, hv, is_valid_uuid]
            · simp only [Bool.not_eq_true] at hv
              simp [hp, hs, hv, is_valid_uuid]
        | some sid =>
            by_cases hv : isValidUUIDStr pid = true
            · by_cases hw : isValidUUIDStr sid = true
              · simp [hp, hs, hv, hw, is_valid_uuid, processPricing_fst]
              · simp only [Bool.not_eq_true] at hw
                simp [hp, hs, hv, hw, is_valid_uuid]
            · simp only [Bool.not_eq_true] at hv
              simp [hp, hs, hv, is_valid_uuid]
  · intro pid sid hp hv hs hw hi
    unfold processRow
    dsimp only
    rw [hp]
    dsimp only
    rw [if_neg (by simp [hv]), hs]
    dsimp only
    rw [if_neg (by simp [hw])]
    cases hio : (processInsurance env
        (processService env (processProvider env st r).2 r).2 r).1 with
    | none =>
        dsimp only
        rw [if_pos (processPricing_fst _ _ _ _ _)]
    | some x =>
        rw [hio] at hi
        simp only [is_valid_uuid] at hi
        dsimp only
        rw [hi]
        simp only [Bool.false_eq_true, if_false]
        rw [if_pos (processPricing_fst _ _ _ _ _)]

/-- C8 witness: a row whose provider and service resolve to well-formed
store identifiers and whose insurance is absent processes successfully
with a null insurance id handed to the pricing stage. -/
theorem process_row_fails_iff_witness :
    processRow envResolved DPState.empty rowPS =
      ⟨true, "",
        (processPricing
          (processInsurance envResolved
            (processService envResolved
              (processProvider envResolved DPState.empty rowPS).2 rowPS).2
            rowPS).2
          rowPS fixtureUuidA fixtureUuidB Option.none).2⟩ :=
  (process_row_fails_iff envResolved DPState.empty rowPS).2 fixtureUuidA
    fixtureUuidB (by decide) (by decide) (by decide) (by decide) (by decide)

/-- C9: within one file, two rows with identical truthy (Provider Name,
City, Zip Code) fields resolve to the same provider identifier, and the
second resolution leaves the processor state - in particular the staged
provider upserts - unchanged, so at most one payload is staged for that
identity. -/
theorem provider_resolution_dedups (env : ResolveEnv) (st : DPState)
    (r1 r2 : Row)
    (hn : r1.get "Provider Name" = r2.get "Provider Name")
    (hc : r1.get "City" = r2.get "City")
    (hz : r1.get "Zip Code" = r2.get "Zip Code")
    (t1 : (r1.get "Provider Name").truthy = true)
    (t2 : (r1.get "City").truthy = true)
    (t3 : (r1.get "Zip Code").truthy = true) :
    (processProvider env (processProvider env st r1).2 r2).1 =
      (processProvider env st r1).1 ∧
    (processProvider env (processProvider env st r1).2 r2).2 =
      (processProvider env st r1).2 := by
  have t1' : (r2.get "Provider Name").truthy = true := hn ▸ t1
  have t2' : (r2.get "City").truthy = true := hc ▸ t2
  have t3' : (r2.get "Zip Code").truthy = true := hz ▸ t3
  have hkey : hash_row r2 ["Provider Name", "City", "Zip Code"] =
      hash_row r1 ["Provider Name", "City", "Zip Code"] := by
    unfold hash_row
    simp only [List.map_cons, List.map_nil]
    rw [← hn, ← hc, ← hz]
  unfold processProvider
  rw [t1, t2, t3, t1', t2', t3', hkey]
  simp only [Bool.and_self, if_true]
  cases hl : alookup (hash_row r1 ["Provider Name", "City", "Zip Code"])
      st.providerCache with
  | some pid => simp [hl]
  | none =>
      cases hdb : env.providerLookup (r1.get "Provider Name")
          (r1.get "City") (r1.get "Zip Code") with
      | some pid =>
          have hset := dictSet_of_none st.providerCache
            (hash_row r1 ["Provider Name", "City", "Zip Code"]) pid hl
          have hlook := alookup_append_self
            (hash_row r1 ["Provider Name", "City", "Zip Code"]) pid
            st.providerCache hl
          rw [← hn, ← hc, ← hz]
          simp [hl, hdb, hset, hlook]
      | none =>
          have hset := dictSet_of_none st.providerCache
            (hash_row r1 ["Provider Name", "City", "Zip Code"])
            (env.genUuid st.uuidCount) hl
          have hlook := alookup_append_self
            (hash_row r1 ["Provider Name", "City", "Zip Code"])
            (env.genUuid st.uuidCount) st.providerCache hl
          rw [← hn, ← hc, ← hz]
          simp [hl, hdb, hset, hlook]

/-- C9 witness: processing the same complete row twice resolves the same
provider id and leaves the processor state unchanged after the second
row. -/
theorem provider_resolution_dedups_witness :
    (processProvider envNoStore
        (processProvider envNoStore DPState.empty rowPS).2 rowPS).1 =
      (processProvider envNoStore DPState.empty rowPS).1 ∧
    (processProvider envNoStore
        (processProvider envNoStore DPState.empty rowPS).2 rowPS).2 =
      (processProvider envNoStore DPState.empty rowPS).2 :=
  provider_resolution_dedups envNoStore DPState.empty rowPS rowPS rfl rfl rfl
    (by decide) (by decide) (by decide)

theorem filter_matches_singleton (db : QueueDB) (p f : String)
    (r : QueueRecord)
    (huniq : (db.filter (matchesFile p f)).length ≤ 1)
    (hmem : r ∈ db) (hmatch : matchesFile p f r = true) :
    db.filter (matchesFile p f) = [r] :=
  eq_singleton_of_length_le_one huniq (List.mem_filter.mpr ⟨hmem, hmatch⟩)

theorem exact_head_of_unique (db : QueueDB) (p f h : String)
    (r : QueueRecord)
    (huniq : (db.filter (matchesFile p f)).length ≤ 1)
    (hmem : r ∈ db) (hmatch : matchesFile p f r = true)
    (hhash : r.file_hash = h) :
    (db.filter (fun x => matchesFile p f x && x.file_hash = h)).head? =
      some r := by
  have hf : db.filter (fun x => matchesFile p f x && x.file_hash = h) =
      (db.filter (matchesFile p f)).filter (fun x => x.file_hash = h) := by
    rw [List.filter_filter]
    exact List.filter_congr (fun a _ => Bool.and_comm _ _)
  rw [hf, filter_matches_singleton db p f r huniq hmem hmatch]
  simp [hhash]

theorem exact_empty_of_unique (db : QueueDB) (p f h : String)
    (r : QueueRecord)
    (huniq : (db.filter (matchesFile p f)).length ≤ 1)
    (hmem : r ∈ db) (hmatch : matchesFile p f r = true)
    (hhash : r.file_hash ≠ h) :
    db.filter (fun x => matchesFile p f x && x.file_hash = h) = [] := by
  have hf : db.filter (fun x => matchesFile p f x && x.file_hash = h) =
      (db.filter (matchesFile p f)).filter (fun x => x.file_hash = h) := by
    rw [List.filter_filter]
    exact List.filter_congr (fun a _ => Bool.and_comm _ _)
  rw [hf, filter_matches_singleton db p f r huniq hmem hmatch]
  simp [hhash]

theorem conflict_head_of_unique (db : QueueDB) (p f h : String)
    (r : QueueRecord)
    (huniq : (db.filter (matchesFile p f)).length ≤ 1)
    (hmem : r ∈ db) (hmatch : matchesFile p f r = true)
    (hhash : r.file_hash ≠ h) :
    (db.filter (fun x => matchesFile p f x && x.file_hash ≠ h)).head? =
      some r := by
  have hf : db.filter (fun x => matchesFile p f x && x.file_hash ≠ h) =
      (db.filter (matchesFile p f)).filter (fun x => x.file_hash ≠ h) := by
    rw [List.filter_filter]
    exact List.filter_congr (fun a _ => Bool.and_comm _ _)
  rw [hf, filter_matches_singleton db p f r huniq hmem hmatch]
  simp [hhash]

/-- C2: when the queue already holds the (provider, file, hash) triple with
status completed, pending or processing, a second enqueue of the identical
content is skipped: no record is inserted and no record is changed. -/
theorem enqueue_skips_identical_hash (db : QueueDB) (now : String)
    (nextId : ℕ) (su p f h : String) (r : QueueRecord)
    (huniq : (db.filter (matchesFile p f)).length ≤ 1)
    (hmem : r ∈ db) (hmatch : matchesFile p f r = true)
    (hhash : r.file_hash = h)
    (hstat : r.status = QStatus.completed ∨ r.status = QStatus.pending ∨
      r.status = QStatus.processing) :
    (enqueue_file db now nextId su p f (some h)).2 = db ∧
    ((enqueue_file db now nextId su p f (some h)).1 =
        EnqueueOutcome.skippedCompleted ∨
      (enqueue_file db now nextId su p f (some h)).1 =
        EnqueueOutcome.skippedInQueue) := by
  unfold enqueue_file
  dsimp only
  rw [exact_head_of_unique db p f h r huniq hmem hmatch hhash]
  dsimp only
  rcases hstat with hs | hs | hs
  · rw [hs]
    simp
  · rw [hs]
    simp
  · rw [hs]
    simp

/-- C2 witness: re-enqueueing Clinic A's completed file with its unchanged
hash leaves the queue untouched and reports a skip. -/
theorem enqueue_skips_identical_hash_witness :
    (enqueue_file [qrecCompleted] "t2" 5 "src1" "Clinic A" "clinic_a.csv"
        (some "h1")).2 = [qrecCompleted] ∧
    ((enqueue_file [qrecCompleted] "t2" 5 "src1" "Clinic A" "clinic_a.csv"
          (some "h1")).1 = EnqueueOutcome.skippedCompleted ∨
      (enqueue_file [qrecCompleted] "t2" 5 "src1" "Clinic A" "clinic_a.csv"
          (some "h1")).1 = EnqueueOutcome.skippedInQueue) :=
  enqueue_skips_identical_hash [qrecCompleted] "t2" 5 "src1" "Clinic A"
    "clinic_a.csv" "h1" qrecCompleted (by decide) (by decide) (by decide)
    (by decide) (by decide)

/-- C3: when a record with the same (provider, file) but a different hash
exists - in any status - enqueue updates that record in place: new hash,
status pending, retry count 0, error cleared, processed timestamp reset;
no new record is inserted. -/
theorem enqueue_updates_in_place_on_hash_change (db : QueueDB)
    (now : String) (nextId : ℕ) (su p f h : String) (r : QueueRecord)
    (huniq : (db.filter (matchesFile p f)).length ≤ 1)
    (hmem : r ∈ db) (hmatch : matchesFile p f r = true)
    (hhash : r.file_hash ≠ h) :
    (enqueue_file db now nextId su p f (some h)).1 =
      EnqueueOutcome.updatedContent ∧
    (enqueue_file db now nextId su p f (some h)).2 =
      updateById db r.id (fun x =>
        { x with
            file_hash := h
            status := QStatus.pending
            last_checked_at := some now
            retry_count := 0
            error_message := Option.none
            updated_at := some now
            processed_at := Option.none }) := by
  unfold enqueue_file
  dsimp only
  rw [exact_empty_of_unique db p f h r huniq hmem hmatch hhash]
  rw [conflict_head_of_unique db p f h r huniq hmem hmatch hhash]
  exact ⟨rfl, rfl⟩

/-- C3 witness: a changed file re-uploaded under the same filename resets
Clinic A's completed record to pending with the new hash. -/
theorem enqueue_updates_in_place_on_hash_change_witness :
    (enqueue_file [qrecCompleted] "t2" 5 "src1" "Clinic A" "clinic_a.csv"
        (some "h2")).1 = EnqueueOutcome.updatedContent ∧
    (enqueue_file [qrecCompleted] "t2" 5 "src1" "Clinic A" "clinic_a.csv"
        (some "h2")).2 =
      updateById [qrecCompleted] qrecCompleted.id (fun x =>
        { x with
            file_hash := "h2"
            status := QStatus.pending
            last_checked_at := some "t2"
            retry_count := 0
            error_message := Option.none
            updated_at := some "t2"
            processed_at := Option.none }) :=
  enqueue_updates_in_place_on_hash_change [qrecCompleted] "t2" 5 "src1"
    "Clinic A" "clinic_a.csv" "h2" qrecCompleted (by decide) (by decide)
    (by decide) (by decide)

/-- C4 counterexample: re-enqueueing Clinic A's failed file with the
identical content hash does not keep the status failed - the record is
automatically reset to pending. -/
theorem enqueue_failed_same_hash_cex :
    (enqueue_file [qrecFailed] "t2" 5 "src1" "Clinic A" "clinic_a.csv"
        (some "h1")).1 = EnqueueOutcome.retriedFailed ∧
    (enqueue_file [qrecFailed] "t2" 5 "src1" "Clinic A" "clinic_a.csv"
        (some "h1")).2.map (fun r => r.status) = [QStatus.pending] := by
  decide

/-- C4 (amended): an enqueue call on a failed record with an identical
content hash automatically resets it to pending (retry count 0, error
cleared, same hash), so failed-to-pending is reachable on re-enqueue even
without a content change. -/
theorem enqueue_failed_same_hash_resets_pending (db : QueueDB)
    (now : String) (nextId : ℕ) (su p f h : String) (r : QueueRecord)
    (huniq : (db.filter (matchesFile p f)).length ≤ 1)
    (hmem : r ∈ db) (hmatch : matchesFile p f r = true)
    (hhash : r.file_hash = h) (hstat : r.status = QStatus.failed) :
    (enqueue_file db now nextId su p f (some h)).1 =
      EnqueueOutcome.retriedFailed ∧
    (enqueue_file db now nextId su p f (some h)).2 =
      updateById db r.id (fun x =>
        { x with
            status := QStatus.pending
            last_checked_at := some now
            retry_count := 0
            error_message := Option.none
            updated_at := some now }) := by
  unfold enqueue_file
  dsimp only
  rw [exact_head_of_unique db p f h r huniq hmem hmatch hhash]
  dsimp only
  rw [hstat]
  simp

/-- C4 (amended) witness: the failed Clinic A record is reset to pending
by a same-hash re-enqueue. -/
theorem enqueue_failed_same_hash_resets_pending_witness :
    (enqueue_file [qrecFailed] "t2" 5 "src1" "Clinic A" "clinic_a.csv"
        (some "h1")).1 = EnqueueOutcome.retriedFailed ∧
    (enqueue_file [qrecFailed] "t2" 5 "src1" "Clinic A" "clinic_a.csv"
        (some "h1")).2 =
      updateById [qrecFailed] qrecFailed.id (fun x =>
        { x with
            status := QStatus.pending
            last_checked_at := some "t2"
            retry_count := 0
            error_message := Option.none
            updated_at := some "t2"
          }) :=
  enqueue_failed_same_hash_resets_pending [qrecFailed] "t2" 5 "src1"
    "Clinic A" "clinic_a.csv" "h1" qrecFailed (by decide) (by decide)
    (by decide) (by decide) (by decide)

/-- C1: reconciliation deletes a relationship whose service IS present in
the current batch.  Provider `P1` offers service `S1` with category
`Lab_Work` and code `X1`; the batch still contains exactly that
(category, code) pair, yet `detect_and_delete_missing_records_for_provider`
deletes the `(P1, S1)` relationship and its pricing row, because the
identity key `"Lab_Work_X1"` is split at its first underscore into
`("Lab", "Work_X1")` and fails to resolve.  The claim's promised deleted
set (persisted minus batch) is empty here. -/
theorem reconciler_deletes_service_present_in_batch :
    ((storeUnderscore.services.filter (fun s =>
        s.service_category = "Lab_Work" && s.service_code = "X1")).map
          (fun s => s.service_id) = ["S1"]) ∧
    (dfUnderscore.map serviceKeyOf = ["Lab_Work_X1"]) ∧
    splitServiceKey "Lab_Work_X1" = some ("Lab", "Work_X1") ∧
    storeUnderscore.provider_services = [("P1", "S1")] ∧
    (detectAndDelete storeUnderscore dfUnderscore
        infoUnderscore).2.provider_services = [] ∧
    (detectAndDelete storeUnderscore dfUnderscore
        infoUnderscore).2.service_pricing = [] ∧
    (detectAndDelete storeUnderscore dfUnderscore infoUnderscore).1 =
      (true, 1) := by
  decide

/-- Scoping safety of the reconciler, which does hold: a reconciliation run
never touches the provider, service or insurance catalogs, never touches
service-insurance rows, and preserves every provider-service relationship
belonging to a different provider. -/
theorem detect_scoped (store : Store) (df : List Row) (info : ProviderInfo) :
    (detectAndDelete store df info).2.providers = store.providers ∧
    (detectAndDelete store df info).2.services = store.services ∧
    (detectAndDelete store df info).2.insuranceRows = store.insuranceRows ∧
    (detectAndDelete store df info).2.service_insurance =
      store.service_insurance ∧
    ∀ e ∈ store.provider_services,
      (∀ pid, resolveProviderId store info = some pid → e.1 ≠ pid) →
      e ∈ (detectAndDelete store df info).2.provider_services := by
  unfold detectAndDelete
  cases hp : resolveProviderId store info with
  | none => exact ⟨rfl, rfl, rfl, rfl, fun e he _ => he⟩
  | some pid =>
      refine ⟨rfl, rfl, rfl, rfl, ?_⟩
      intro e he hne
      dsimp only
      apply List.mem_filter.mpr
      refine ⟨he, ?_⟩
      have hne' : e.1 ≠ pid := hne pid rfl
      simp [hne']

theorem mem_eraseDups_loop {α : Type} [BEq α] [LawfulBEq α] (x : α) :
    ∀ (as bs : List α), x ∈ List.eraseDups.loop as bs ↔ x ∈ as ∨ x ∈ bs := by
  intro as
  induction as with
  | nil =>
      intro bs
      simp [List.eraseDups.loop]
  | cons a t ih =>
      intro bs
      unfold List.eraseDups.loop
      cases h : bs.elem a with
      | true =>
          rw [ih]
          have ha : a ∈ bs := by simpa using h
          constructor
          · rintro (hx | hx)
            · exact Or.inl (List.mem_cons_of_mem a hx)
            · exact Or.inr hx
          · rintro (hx | hx)
            · rcases List.mem_cons.mp hx with rfl | hx
              · exact Or.inr ha
              · exact Or.inl hx
            · exact Or.inr hx
      | false =>
          rw [ih]
          simp [List.mem_cons]
          tauto

theorem mem_eraseDups {α : Type} [BEq α] [LawfulBEq α] {x : α}
    {l : List α} : x ∈ l.eraseDups ↔ x ∈ l := by
  unfold List.eraseDups
  rw [mem_eraseDups_loop]
  simp

theorem splitFirstChar_append_sep (sep : Char) (c d : List Char)
    (h : sep ∉ c) : splitFirstChar sep (c ++ sep :: d) = some (c, d) := by
  induction c with
  | nil => simp [splitFirstChar]
  | cons x t ih =>
      have hx : ¬ x = sep := by
        rintro rfl
        exact h (List.mem_cons_self x t)
      have ht : sep ∉ t := fun hm => h (List.mem_cons_of_mem x hm)
      simp [splitFirstChar, hx, ih ht]

theorem strMk_toList (s : String) : String.mk s.toList = s := rfl

theorem splitServiceKey_roundtrip (c d : String) (h : '_' ∉ c.toList) :
    splitServiceKey (c ++ "_" ++ d) = some (c, d) := by
  unfold splitServiceKey
  have hl : (c ++ "_" ++ d).toList = c.toList ++ '_' :: d.toList := by
    show (c ++ "_" ++ d).data = c.data ++ '_' :: d.data
    rw [String.data_append, String.data_append]
    simp
  rw [hl, splitFirstChar_append_sep '_' c.toList d.toList h]
  rfl

theorem mem_currentServiceIds_of_resolves (store : Store) (df : List Row)
    (r : Row) (s : ServiceRow) (hr : r ∈ df)
    (hclean : '_' ∉ (pyStr (r.get "Service Category")).toList)
    (hhead : (store.services.filter (fun x =>
        x.service_category = pyStr (r.get "Service Category") &&
        x.service_code = pyStr (r.get "Service Code"))).head? = some s) :
    s.service_id ∈ currentServiceIds store df := by
  unfold currentServiceIds
  apply List.mem_filterMap.mpr
  refine ⟨serviceKeyOf r,
    mem_eraseDups.mpr (List.mem_map_of_mem serviceKeyOf hr), ?_⟩
  unfold serviceKeyOf
  rw [splitServiceKey_roundtrip _ _ hclean]
  dsimp only
  rw [hhead]
  rfl

/-- Exact-diff characterisation of the reconciler for a resolved provider:
a persisted relationship row survives the run exactly when it belongs to a
different provider or its service id is among the batch-resolved ids - so
the deleted rows are exactly the provider's persisted service ids minus
the batch's resolved service ids.  Together with
`mem_currentServiceIds_of_resolves` (resolution is faithful when the
category has no underscore) this is the claim C1 intends; the underscore
failing input shows where resolution itself breaks. -/
theorem reconciler_exact_diff (store : Store) (df : List Row)
    (info : ProviderInfo) (pid : String)
    (hp : resolveProviderId store info = some pid) :
    ∀ e ∈ store.provider_services,
      (e ∈ (detectAndDelete store df info).2.provider_services ↔
        (e.1 ≠ pid ∨ e.2 ∈ currentServiceIds store df)) := by
  intro e he
  unfold detectAndDelete
  rw [hp]
  dsimp only
  rw [List.mem_filter]
  constructor
  · rintro ⟨-, hpred⟩
    by_cases hep : e.1 = pid
    · right
      simp only [hep, decide_True, Bool.true_and, Bool.not_eq_true'] at hpred
      by_contra hcur
      have hex : e.2 ∈ (store.provider_services.filter
          (fun x => x.1 = pid)).map (fun x => x.2) :=
        List.mem_map.mpr ⟨e, List.mem_filter.mpr ⟨he, by simp [hep]⟩, rfl⟩
      have hst : e.2 ∈ ((store.provider_services.filter
          (fun x => x.1 = pid)).map (fun x => x.2)).filter
            (fun sid => !(currentServiceIds store df).contains sid) :=
        List.mem_filter.mpr ⟨hex, by simpa using hcur⟩
      have : (((store.provider_services.filter
          (fun x => x.1 = pid)).map (fun x => x.2)).filter
            (fun sid => !(currentServiceIds store df).contains sid)).contains
              e.2 = true := by simpa using hst
      rw [this] at hpred
      cases hpred
    · exact Or.inl hep
  · intro hor
    refine ⟨he, ?_⟩
    by_cases hep : e.1 = pid
    · rcases hor with hne | hcur
      · exact absurd hep hne
      · simp only [hep, decide_True, Bool.true_and, Bool.not_eq_true']
        have : e.2 ∉ ((store.provider_services.filter
            (fun x => x.1 = pid)).map (fun x => x.2)).filter
              (fun sid => !(currentServiceIds store df).contains sid) := by
          intro hmem
          have hns := (List.mem_filter.mp hmem).2
          simp only [Bool.not_eq_true'] at hns
          exact absurd hcur (by simpa using hns)
        simpa using this
    · simp [hep]
